import Mathlib

/-!
Shallow embedding of the solar-thermal simulation engine of the
Physics-Simulator-Coding-Exercise repository.

Sources embedded:
  * src/src/models/Fluid.ts            — fluid catalog (numeric fields)
  * src/src/utils/formulas.ts          — the Fahrenheit-based formula set
    (the variant whose `computeHeatLoss` takes `elevationDiff` and whose
    `computeTemperatureChange` takes the `isPanel`/`panelArea` arguments,
    i.e. the one the hook below calls)
  * src/src/constants/simulation.ts    — DEFAULT_PARAMS
  * src/src/hooks/useSimulation.ts     — the variant with the
    gravity/thermosiphon `Math.max` passive-flow logic

JavaScript numbers are modelled as real numbers; `Math.pow` becomes
`Real.rpow`, `Math.exp` becomes `Real.exp`, `Math.max`/`Math.min` become
`max`/`min`, `Math.abs` becomes `|·|`.  Local `const` bindings of the
source functions are lifted to top-level definitions so that theorems can
speak about the intermediate quantities of a tick.  The React scheduling
shell (timers, refs) is modelled synchronously: an `Engine` record holds
the bound parameters (`paramsRef`), the reducer state and the chart data
buffer, and `engineTick`/`engineStart`/`enginePause`/`engineReset` are the
state transformations that `tick`/`start`/`pause`/`reset` perform on it.
-/

namespace PhysicsSim

noncomputable section

/-! ### Fluid catalog (src/src/models/Fluid.ts)

Only the numeric properties are modelled; the display `name` string plays
no role in the engine. -/

inductive FluidType where
  | water
  | glycol
deriving DecidableEq

structure FluidProperties where
  specificHeat : ℝ  -- J/(kg·K)
  density : ℝ       -- kg/m^3

def FLUIDS : FluidType → FluidProperties
  | .water => { specificHeat := 4186, density := 997 }
  | .glycol => { specificHeat := 3500, density := 1050 }

/-! ### Formulas (src/src/utils/formulas.ts, Fahrenheit variant) -/

-- Temperature coefficient of efficiency for solar panels
def TEMP_COEFFICIENT : ℝ := -0.00222

-- Panel thermal properties per square meter
def PANEL_MASS_PER_M2 : ℝ := 10
def PANEL_SPECIFIC_HEAT : ℝ := 900

def getPanelThermalMass (area : ℝ) : ℝ := PANEL_MASS_PER_M2 * area

-- Air pressure at a given elevation (barometric formula)
def getAirPressure (elevationDiff : ℝ) : ℝ :=
  101325 * Real.exp (-(9.81 * max 0 elevationDiff) / (287.05 * 288.15))

-- Air density as a function of temperature (°F) and elevation:
-- ideal gas law at the barometric pressure, temperature converted
-- °F → °R → K
def getAirDensity (tempF elevationDiff : ℝ) : ℝ :=
  getAirPressure elevationDiff / (287.05 * ((tempF + 459.67) * 5 / 9))

-- Sutherland's formula, evaluated in Rankine
def getAirViscosity (tempF : ℝ) : ℝ :=
  1.716e-5 * (491.67 + 110.4) / ((tempF + 459.67) + 110.4) *
    ((tempF + 459.67) / 491.67) ^ (1.5 : ℝ)

-- Linear model, with an irradiance correction
def getAirThermalConductivity (tempF irradiance : ℝ) : ℝ :=
  0.0242 * (1 + irradiance / 1000 * 0.1) +
    7.7e-5 * (1 + irradiance / 1000 * 0.05) * tempF

-- Prandtl number with a flow-rate correction
def getPrandtlNumber (tempF flowRate : ℝ) : ℝ :=
  (0.713 - 0.0001 * tempF) * (1 + min (flowRate / 10) 1 * 0.1)

-- Heat input with temperature-dependent efficiency, floored at zero
def computeHeatInput (irradiance baseEfficiency area panelTempF : ℝ) : ℝ :=
  irradiance * max 0 (baseEfficiency * (1 + TEMP_COEFFICIENT * (panelTempF - 77))) * area

-- Convection loss, scaled down at higher elevation
def computeHeatLoss (area T_panelF T_ambientF h elevationDiff : ℝ) : ℝ :=
  h * area * (T_panelF - T_ambientF) * (1 - elevationDiff / 1000 * 0.1)

-- Temperature change with thermal-mass consideration
def computeTemperatureChange (Q_net mass specificHeat : ℝ)
    (isPanel : Bool) (panelArea : ℝ) : ℝ :=
  Q_net / ((if isPanel then getPanelThermalMass panelArea else mass) *
    (if isPanel then PANEL_SPECIFIC_HEAT else specificHeat))

-- Local values of computeHeatTransferCoeff, lifted to definitions

def filmTemp (panelTempF ambientTempF : ℝ) : ℝ := (panelTempF + ambientTempF) / 2

def chtcGrashof (panelTempF ambientTempF panelHeight elevationDiff : ℝ) : ℝ :=
  9.81 * (1 / (filmTemp panelTempF ambientTempF + 459.67)) *
    |panelTempF - ambientTempF| * panelHeight ^ (3 : ℝ) /
    (getAirViscosity (filmTemp panelTempF ambientTempF) /
      getAirDensity (filmTemp panelTempF ambientTempF) elevationDiff) ^ (2 : ℝ)

def chtcRayleigh (panelTempF ambientTempF panelHeight flowRate elevationDiff : ℝ) : ℝ :=
  chtcGrashof panelTempF ambientTempF panelHeight elevationDiff *
    getPrandtlNumber (filmTemp panelTempF ambientTempF) flowRate

-- Churchill–Chu correlation
def chtcNusselt (panelTempF ambientTempF panelHeight flowRate elevationDiff : ℝ) : ℝ :=
  0.68 + 0.67 * chtcRayleigh panelTempF ambientTempF panelHeight flowRate elevationDiff ^ (0.25 : ℝ) /
    (1 + (0.492 / getPrandtlNumber (filmTemp panelTempF ambientTempF) flowRate) ^ ((9 : ℝ) / 16)) ^ ((4 : ℝ) / 9)

-- Heat transfer coefficient: natural convection (Churchill–Chu) plus a
-- light forced-convection term; floored at 5 for near-zero gradients.
-- The source's default arguments (panelHeight = 1.5, irradiance = 0,
-- flowRate = 0, elevationDiff = 0) are passed explicitly by callers here.
def computeHeatTransferCoeff
    (panelTempF ambientTempF panelHeight irradiance flowRate elevationDiff : ℝ) : ℝ :=
  if |panelTempF - ambientTempF| < 0.1 then 5
  else
    chtcNusselt panelTempF ambientTempF panelHeight flowRate elevationDiff *
      getAirThermalConductivity (filmTemp panelTempF ambientTempF) irradiance / panelHeight +
      (5.7 + 3.8 * (0.5 * (1 + elevationDiff / 1000)))

/-! ### Simulation data model (src/src/types, src/src/constants/simulation.ts) -/

structure SimulationParams where
  fluid : FluidType
  irradiance : ℝ     -- W/m²
  efficiency : ℝ     -- 0-1
  ambientTemp : ℝ
  flowRate : ℝ       -- L/min
  tankVolume : ℝ     -- L
  initialTemp : ℝ
  panelArea : ℝ      -- m²
  elevationDiff : ℝ  -- meters, positive = tank above panel

structure SimulationState where
  time : ℝ
  tankTemp : ℝ
  panelTemp : ℝ
  Q : ℝ
  Q_loss : ℝ
  running : Bool

structure TickData where
  time : ℝ
  tankTemp : ℝ
  panelTemp : ℝ
  Q : ℝ
  Q_loss : ℝ

def DEFAULT_PARAMS : SimulationParams :=
  { fluid := .water
    irradiance := 1000
    efficiency := 0.8
    ambientTemp := 70
    flowRate := 1
    tankVolume := 200
    initialTemp := 68
    panelArea := 2
    elevationDiff := 10 }

/-! ### Reducer (src/src/hooks/useSimulation.ts) -/

def MAX_DATA_POINTS : ℕ := 50

def getInitialState (params : SimulationParams) : SimulationState :=
  { time := 0
    tankTemp := params.initialTemp
    panelTemp := params.ambientTemp
    Q := 0
    Q_loss := 0
    running := false }

inductive SimulationAction where
  | tickAction (payload : TickData)
  | startAction (payload : SimulationParams)
  | pauseAction
  | resetAction (payload : SimulationParams)

-- TICK spreads the payload over the state but overrides `time` with
-- `state.time + 1`; payload has no `running` field so `running` is kept.
-- START spreads the params over the freshly initialized state; the param
-- fields do not overlap the state fields, so the observable state is
-- `getInitialState payload` with `running := true`.
def simulationReducer (state : SimulationState) (action : SimulationAction) : SimulationState :=
  match action with
  | .tickAction payload =>
      { time := state.time + 1
        tankTemp := payload.tankTemp
        panelTemp := payload.panelTemp
        Q := payload.Q
        Q_loss := payload.Q_loss
        running := state.running }
  | .startAction payload => { getInitialState payload with running := true }
  | .pauseAction => { state with running := false }
  | .resetAction payload => getInitialState payload

/-! ### One tick (the body of `tick` in src/src/hooks/useSimulation.ts),
with the local `const` values lifted to definitions of the previous state
and the bound parameters. -/

def fluidMass (p : SimulationParams) : ℝ :=
  p.tankVolume / 1000 * (FLUIDS p.fluid).density

def heatInputQ (p : SimulationParams) (prevState : SimulationState) : ℝ :=
  computeHeatInput p.irradiance p.efficiency p.panelArea prevState.panelTemp

-- `computeHeatTransferCoeff` is called with two arguments in the source,
-- so the remaining parameters take their default values 1.5, 0, 0, 0.
def heatLossQ (p : SimulationParams) (prevState : SimulationState) : ℝ :=
  computeHeatLoss p.panelArea prevState.panelTemp p.ambientTemp
    (computeHeatTransferCoeff prevState.panelTemp p.ambientTemp 1.5 0 0 0)
    p.elevationDiff

-- Gravity-driven passive flow: 0.2 L/min per meter if tank is above panel
def gravityFlow (p : SimulationParams) : ℝ :=
  if p.elevationDiff > 0 then 0.2 * p.elevationDiff else 0

-- Thermosiphon: 0.1 L/min per 10°F panel-tank difference if panel is hotter
def thermoFlow (prevState : SimulationState) : ℝ :=
  if prevState.panelTemp > prevState.tankTemp then
    0.1 * ((prevState.panelTemp - prevState.tankTemp) / 10)
  else 0

-- Flow rate logic with passive return
def effectiveFlowRate (p : SimulationParams) (prevState : SimulationState) : ℝ :=
  if p.flowRate > 0.01 then p.flowRate
  else if p.flowRate > 0 then max (max (gravityFlow p) (thermoFlow prevState)) 0
  else 0

-- flowRate: L/min -> m^3/s, then times fluid density
def massFlowRate (p : SimulationParams) (prevState : SimulationState) : ℝ :=
  effectiveFlowRate p prevState / 1000 / 60 * (FLUIDS p.fluid).density

-- Heat transfer from tank to panel when tank is hotter
def QTankToPanel (p : SimulationParams) (prevState : SimulationState) : ℝ :=
  if massFlowRate p prevState > 0 then
    if prevState.tankTemp > prevState.panelTemp then
      massFlowRate p prevState * (FLUIDS p.fluid).specificHeat *
        (prevState.tankTemp - prevState.panelTemp)
    else 0
  else 0

-- Net heat to panel = solar input - ambient loss + heat from tank
def QNet (p : SimulationParams) (prevState : SimulationState) : ℝ :=
  heatInputQ p prevState - heatLossQ p prevState + QTankToPanel p prevState

def newPanelTemp (p : SimulationParams) (prevState : SimulationState) : ℝ :=
  prevState.panelTemp + computeTemperatureChange (QNet p prevState) 0 0 true p.panelArea

-- Fluid temperature change in the panel
def deltaTFluid (p : SimulationParams) (prevState : SimulationState) : ℝ :=
  if massFlowRate p prevState > 0 then
    if prevState.tankTemp > prevState.panelTemp then
      -QTankToPanel p prevState / (massFlowRate p prevState * (FLUIDS p.fluid).specificHeat)
    else
      QNet p prevState / (massFlowRate p prevState * (FLUIDS p.fluid).specificHeat)
  else 0

def panelOutletTemp (p : SimulationParams) (prevState : SimulationState) : ℝ :=
  newPanelTemp p prevState + deltaTFluid p prevState

-- Energy delivered per second to the well-mixed tank
def QDelivered (p : SimulationParams) (prevState : SimulationState) : ℝ :=
  massFlowRate p prevState * (FLUIDS p.fluid).specificHeat *
    (panelOutletTemp p prevState - prevState.tankTemp)

def newTankTemp (p : SimulationParams) (prevState : SimulationState) : ℝ :=
  prevState.tankTemp +
    computeTemperatureChange (QDelivered p prevState) (fluidMass p)
      (FLUIDS p.fluid).specificHeat false 0

def tickData (p : SimulationParams) (prevState : SimulationState) : TickData :=
  { time := prevState.time + 1
    tankTemp := newTankTemp p prevState
    panelTemp := newPanelTemp p prevState
    Q := heatInputQ p prevState
    Q_loss := heatLossQ p prevState }

-- The chart-data update inside `setData`: append, then if we exceed
-- MAX_DATA_POINTS drop the oldest points (JS `slice(-MAX_DATA_POINTS)`
-- keeps the last MAX_DATA_POINTS entries).
def pushData (prev : List TickData) (r : TickData) : List TickData :=
  let newData := prev ++ [r]
  if newData.length > MAX_DATA_POINTS then
    newData.drop (newData.length - MAX_DATA_POINTS)
  else newData

/-! ### The engine shell: `paramsRef` + reducer state + chart data. -/

structure Engine where
  params : Option SimulationParams
  state : SimulationState
  data : List TickData

-- `tick`: returns immediately when no parameters are bound; otherwise
-- dispatches TICK with the computed payload and appends it to the data.
def engineTick (e : Engine) : Engine :=
  match e.params with
  | none => e
  | some p =>
      { e with
        state := simulationReducer e.state (.tickAction (tickData p e.state))
        data := pushData e.data (tickData p e.state) }

-- `start`: binds the parameters, dispatches START, clears the data.
def engineStart (e : Engine) (p : SimulationParams) : Engine :=
  { params := some p
    state := simulationReducer e.state (.startAction p)
    data := [] }

-- `pause`: dispatches PAUSE (and clears the interval timer).
def enginePause (e : Engine) : Engine :=
  { e with state := simulationReducer e.state .pauseAction }

-- `reset`: dispatches RESET only when parameters have been bound, but
-- clears the data unconditionally.
def engineReset (e : Engine) : Engine :=
  { e with
    state :=
      match e.params with
      | some p => simulationReducer e.state (.resetAction p)
      | none => e.state
    data := [] }

/-! ### Unfolded runs: the state and the full (uncapped) record sequence
after `n` ticks. -/

def stateAfterTicks (p : SimulationParams) (s : SimulationState) : ℕ → SimulationState
  | 0 => s
  | n + 1 =>
      simulationReducer (stateAfterTicks p s n)
        (.tickAction (tickData p (stateAfterTicks p s n)))

def fullHistory (p : SimulationParams) (s : SimulationState) : ℕ → List TickData
  | 0 => []
  | n + 1 => fullHistory p s n ++ [tickData p (stateAfterTicks p s n)]

/-! ### Engine lemmas -/

theorem engineTick_params (e : Engine) : (engineTick e).params = e.params := by
  cases h : e.params <;> simp [engineTick, h]

theorem engineTick_iterate_params (n : ℕ) (e : Engine) :
    (engineTick^[n] e).params = e.params := by
  induction n with
  | zero => rfl
  | succ n ih => rw [Function.iterate_succ_apply', engineTick_params, ih]

theorem fullHistory_length (p : SimulationParams) (s : SimulationState) (n : ℕ) :
    (fullHistory p s n).length = n := by
  induction n with
  | zero => rfl
  | succ n ih => simp [fullHistory, ih]

-- Appending through the cap: pushing one record onto the last-50 suffix of
-- a sequence yields the last-50 suffix of the extended sequence.
theorem pushData_drop (l : List TickData) (r : TickData) :
    pushData (l.drop (l.length - MAX_DATA_POINTS)) r =
      (l ++ [r]).drop ((l ++ [r]).length - MAX_DATA_POINTS) := by
  rcases le_or_lt l.length MAX_DATA_POINTS with hle | hlt
  · have h0 : l.length - MAX_DATA_POINTS = 0 := Nat.sub_eq_zero_of_le hle
    simp only [pushData, h0, List.drop_zero]
    by_cases h1 : MAX_DATA_POINTS < (l ++ [r]).length
    · rw [if_pos h1]
    · rw [if_neg h1]
      have h2 : (l ++ [r]).length - MAX_DATA_POINTS = 0 := by omega
      rw [h2, List.drop_zero]
  · have hM : 1 ≤ MAX_DATA_POINTS := by norm_num [MAX_DATA_POINTS]
    have hlr : (l ++ [r]).length = l.length + 1 := by simp
    have hdlen : (l.drop (l.length - MAX_DATA_POINTS)).length = MAX_DATA_POINTS := by
      rw [List.length_drop]; omega
    simp only [pushData]
    have hcond : MAX_DATA_POINTS <
        (l.drop (l.length - MAX_DATA_POINTS) ++ [r]).length := by
      simp [hdlen]
    rw [if_pos hcond]
    have h1 : (l.drop (l.length - MAX_DATA_POINTS) ++ [r]).length - MAX_DATA_POINTS = 1 := by
      simp [hdlen]
    rw [h1,
      List.drop_append_of_le_length
        (by rw [hdlen]; exact hM),
      List.drop_drop,
      List.drop_append_of_le_length
        (by omega : (l ++ [r]).length - MAX_DATA_POINTS ≤ l.length)]
    have h2 : l.length - MAX_DATA_POINTS + 1 = (l ++ [r]).length - MAX_DATA_POINTS := by
      omega
    rw [h2]

-- Closed form of a run: after n ticks the engine holds the n-fold ticked
-- state and the last-50 suffix of the full record sequence.
theorem engineTick_iterate_run (p : SimulationParams) (s : SimulationState) (n : ℕ) :
    engineTick^[n] ⟨some p, s, []⟩ =
      ⟨some p, stateAfterTicks p s n,
        (fullHistory p s n).drop ((fullHistory p s n).length - MAX_DATA_POINTS)⟩ := by
  induction n with
  | zero => simp [stateAfterTicks, fullHistory]
  | succ n ih =>
      rw [Function.iterate_succ_apply', ih]
      show (⟨some p,
        simulationReducer (stateAfterTicks p s n)
          (SimulationAction.tickAction (tickData p (stateAfterTicks p s n))),
        pushData ((fullHistory p s n).drop ((fullHistory p s n).length - MAX_DATA_POINTS))
          (tickData p (stateAfterTicks p s n))⟩ : Engine) = _
      rw [pushData_drop]
      rfl

/-! ### Claim theorems -/

/-- C4: the history buffer after any number of ticks is exactly the
insertion-ordered record sequence with the oldest entries dropped down to
the 50-cap (FIFO eviction), so its length never exceeds 50; after 60 ticks
it holds exactly the records of ticks 11 through 60 in original order. -/
theorem claim4_history_bounded (p : SimulationParams) (s : SimulationState) :
    (∀ n, (engineTick^[n] ⟨some p, s, []⟩).data =
        (fullHistory p s n).drop (n - MAX_DATA_POINTS) ∧
      ((engineTick^[n] ⟨some p, s, []⟩).data).length ≤ MAX_DATA_POINTS) ∧
    (engineTick^[60] ⟨some p, s, []⟩).data = (fullHistory p s 60).drop 10 := by
  have key : ∀ n, (engineTick^[n] ⟨some p, s, []⟩).data =
      (fullHistory p s n).drop (n - MAX_DATA_POINTS) := by
    intro n
    rw [engineTick_iterate_run, fullHistory_length]
  refine ⟨fun n => ⟨key n, ?_⟩, ?_⟩
  · rw [key n, List.length_drop, fullHistory_length]
    omega
  · rw [key 60]
    norm_num [MAX_DATA_POINTS]

/-- C1 (amended): `start` performs no parameter validation at all: for every
parameter record, valid or invalid, it binds the record as the current
parameters, reinitializes the state with `running := true`, and clears the
history buffer. -/
theorem claim1_start_never_rejects (e : Engine) (p : SimulationParams) :
    (engineStart e p).params = some p ∧
    (engineStart e p).state.running = true ∧
    (engineStart e p).state.tankTemp = p.initialTemp ∧
    (engineStart e p).state.panelTemp = p.ambientTemp ∧
    (engineStart e p).state.time = 0 ∧
    (engineStart e p).data = [] :=
  ⟨rfl, rfl, rfl, rfl, rfl, rfl⟩

/-- C1 (counterexample): starting with an efficiency of 2 — outside the
stated invariant [0,1] — still binds the parameters and sets `running` to
true, so `start` does not reject invalid records. -/
theorem claim1_counterexample :
    (1 : ℝ) < ({ DEFAULT_PARAMS with efficiency := 2 } : SimulationParams).efficiency ∧
    (engineStart ⟨none, getInitialState DEFAULT_PARAMS, []⟩
      { DEFAULT_PARAMS with efficiency := 2 }).state.running = true ∧
    (engineStart ⟨none, getInitialState DEFAULT_PARAMS, []⟩
      { DEFAULT_PARAMS with efficiency := 2 }).params =
      some { DEFAULT_PARAMS with efficiency := 2 } :=
  ⟨by show (1 : ℝ) < 2; norm_num, rfl, rfl⟩

/-- C2 (amended): when the pump setting is positive but at most the 0.01
threshold (pump effectively off) and the elevation difference is positive,
the resolved effective flow rate is strictly positive regardless of the
panel and tank temperatures (gravity path active).  With a pump setting of
exactly 0 the code takes the "no flow at all" branch instead. -/
theorem claim2_gravity_flow_positive (p : SimulationParams) (st : SimulationState)
    (h1 : 0 < p.flowRate) (h2 : p.flowRate ≤ 0.01) (h3 : 0 < p.elevationDiff) :
    0 < effectiveFlowRate p st := by
  rw [effectiveFlowRate, if_neg (not_lt.mpr h2), if_pos h1]
  have hg : 0 < gravityFlow p := by
    rw [gravityFlow, if_pos h3]; linarith
  exact lt_of_lt_of_le hg (le_trans (le_max_left _ _) (le_max_left _ _))

/-- C2 (witness): a trickle pump setting of 0.005 with the tank 10 m above
the panel yields a strictly positive effective flow. -/
theorem claim2_witness :
    0 < effectiveFlowRate { DEFAULT_PARAMS with flowRate := 0.005 }
      (getInitialState DEFAULT_PARAMS) :=
  claim2_gravity_flow_positive _ _ (by show (0:ℝ) < 0.005; norm_num)
    (by show (0.005:ℝ) ≤ 0.01; norm_num) (by show (0:ℝ) < 10; norm_num)

/-- C2 (counterexample): with the pump setting exactly 0 and the tank 10 m
above the panel, the resolved effective flow rate is 0, not strictly
positive — the claim's premise names flow rate exactly 0, but that case
takes the "no flow at all" branch. -/
theorem claim2_counterexample :
    ({ DEFAULT_PARAMS with flowRate := 0 } : SimulationParams).flowRate = 0 ∧
    0 < ({ DEFAULT_PARAMS with flowRate := 0 } : SimulationParams).elevationDiff ∧
    effectiveFlowRate { DEFAULT_PARAMS with flowRate := 0 }
      (getInitialState DEFAULT_PARAMS) = 0 := by
  refine ⟨rfl, by show (0:ℝ) < 10; norm_num, ?_⟩
  rw [effectiveFlowRate]
  norm_num

/-- C3: the flow-mode resolver returns the pump setting when it exceeds
0.01; exactly 0 when the pump setting is exactly 0; and for settings in
(0, 0.01] the maximum of the gravity candidate, the thermosiphon candidate
and 0 — where the gravity candidate is positive exactly when the elevation
difference is, and the thermosiphon candidate is positive exactly when the
panel is hotter than the tank. -/
theorem claim3_flow_resolver (p : SimulationParams) (st : SimulationState) :
    (0.01 < p.flowRate → effectiveFlowRate p st = p.flowRate) ∧
    (p.flowRate = 0 → effectiveFlowRate p st = 0) ∧
    (0 < p.flowRate → p.flowRate ≤ 0.01 →
      effectiveFlowRate p st = max (max (gravityFlow p) (thermoFlow st)) 0 ∧
      (0 < gravityFlow p ↔ 0 < p.elevationDiff) ∧
      (0 < thermoFlow st ↔ st.tankTemp < st.panelTemp)) := by
  refine ⟨fun h => by rw [effectiveFlowRate, if_pos h],
    fun h => by rw [effectiveFlowRate, h]; norm_num,
    fun h1 h2 => ⟨by rw [effectiveFlowRate, if_neg (not_lt.mpr h2), if_pos h1], ?_, ?_⟩⟩
  · rw [gravityFlow]
    constructor
    · intro hg
      by_contra hne
      rw [if_neg hne] at hg
      exact lt_irrefl 0 hg
    · intro he
      rw [if_pos he]
      linarith
  · rw [thermoFlow]
    constructor
    · intro ht
      by_contra hne
      rw [if_neg hne] at ht
      exact lt_irrefl 0 ht
    · intro he
      rw [if_pos he]
      have : 0 < st.panelTemp - st.tankTemp := by linarith
      positivity

/-- C3 (witness): with the default parameters the pump is forced
(flow 1 > 0.01); at exactly 0 the flow is 0; at 0.005 with the tank 10 m
above the panel and the panel 2°F hotter the resolver picks the gravity
candidate 0.2·10 = 2. -/
theorem claim3_witness :
    effectiveFlowRate DEFAULT_PARAMS (getInitialState DEFAULT_PARAMS) = 1 ∧
    effectiveFlowRate { DEFAULT_PARAMS with flowRate := 0 }
      (getInitialState DEFAULT_PARAMS) = 0 ∧
    effectiveFlowRate { DEFAULT_PARAMS with flowRate := 0.005 }
      (getInitialState DEFAULT_PARAMS) = 2 := by
  obtain ⟨hA, -, -⟩ := claim3_flow_resolver DEFAULT_PARAMS (getInitialState DEFAULT_PARAMS)
  obtain ⟨-, hB, -⟩ := claim3_flow_resolver { DEFAULT_PARAMS with flowRate := 0 }
    (getInitialState DEFAULT_PARAMS)
  obtain ⟨-, -, hC⟩ := claim3_flow_resolver { DEFAULT_PARAMS with flowRate := 0.005 }
    (getInitialState DEFAULT_PARAMS)
  refine ⟨hA (by show (0.01:ℝ) < 1; norm_num), hB rfl, ?_⟩
  obtain ⟨heq, -, -⟩ := hC (by show (0:ℝ) < 0.005; norm_num)
    (by show (0.005:ℝ) ≤ 0.01; norm_num)
  rw [heq, gravityFlow, thermoFlow]
  norm_num [getInitialState, DEFAULT_PARAMS, max_def]

/-- C5: after `start` with any parameter record and any number of ticks,
`reset` reinitializes from the last-bound parameters: tank temp = bound
initial temp, panel temp = bound ambient temp, time = 0, history empty. -/
theorem claim5_reset_restores (e : Engine) (p : SimulationParams) (n : ℕ) :
    (engineReset (engineTick^[n] (engineStart e p))).state.tankTemp = p.initialTemp ∧
    (engineReset (engineTick^[n] (engineStart e p))).state.panelTemp = p.ambientTemp ∧
    (engineReset (engineTick^[n] (engineStart e p))).state.time = 0 ∧
    (engineReset (engineTick^[n] (engineStart e p))).data = [] := by
  have hp : (engineTick^[n] (engineStart e p)).params = some p := by
    rw [engineTick_iterate_params]; rfl
  refine ⟨?_, ?_, ?_, rfl⟩ <;>
    simp [engineReset, hp, simulationReducer, getInitialState]

/-- C7: with the clamped temperature-dependent efficiency and a nonnegative
panel area, the heat input Q is monotone non-decreasing in irradiance for
panel temperatures at or below the 77°F reference temperature. -/
theorem claim7_heat_input_monotone (baseEfficiency area panelTempF i1 i2 : ℝ)
    (harea : 0 ≤ area) (htemp : panelTempF ≤ 77) (hi : i1 ≤ i2) :
    computeHeatInput i1 baseEfficiency area panelTempF ≤
      computeHeatInput i2 baseEfficiency area panelTempF := by
  have hm : (0:ℝ) ≤ max 0 (baseEfficiency * (1 + TEMP_COEFFICIENT * (panelTempF - 77))) :=
    le_max_left _ _
  rw [computeHeatInput, computeHeatInput]
  exact mul_le_mul_of_nonneg_right (mul_le_mul_of_nonneg_right hi hm) harea

/-- C7 (witness): raising irradiance from 500 to 1000 W/m² at efficiency
0.8, area 2 m², panel temperature 70°F does not decrease Q. -/
theorem claim7_witness :
    computeHeatInput 500 0.8 2 70 ≤ computeHeatInput 1000 0.8 2 70 :=
  claim7_heat_input_monotone 0.8 2 70 500 1000 (by norm_num) (by norm_num) (by norm_num)

/-- C8: `pause` is idempotent — pausing twice gives exactly the same engine
as pausing once — and it only flips `running` to false, leaving every other
state field, the history buffer and the bound parameters untouched. -/
theorem claim8_pause_idempotent (e : Engine) :
    enginePause (enginePause e) = enginePause e ∧
    (enginePause e).state.running = false ∧
    (enginePause e).state.time = e.state.time ∧
    (enginePause e).state.tankTemp = e.state.tankTemp ∧
    (enginePause e).state.panelTemp = e.state.panelTemp ∧
    (enginePause e).state.Q = e.state.Q ∧
    (enginePause e).state.Q_loss = e.state.Q_loss ∧
    (enginePause e).data = e.data ∧
    (enginePause e).params = e.params :=
  ⟨rfl, rfl, rfl, rfl, rfl, rfl, rfl, rfl, rfl⟩

/-- C9: when the resolved effective flow rate is 0 the mass flow rate is 0,
so no heat moves between tank and panel: the tank→panel transfer is 0, the
energy delivered to the tank is 0, and the tank temperature is unchanged by
the tick.  (The positive tank volume mirrors the configuration
precondition: with it, the tank's fluid mass is nonzero, matching the
source's division.) -/
theorem claim9_no_flow_no_exchange (p : SimulationParams) (st : SimulationState)
    (hflow : effectiveFlowRate p st = 0) (hvol : 0 < p.tankVolume) :
    QTankToPanel p st = 0 ∧ QDelivered p st = 0 ∧ newTankTemp p st = st.tankTemp := by
  have hm : massFlowRate p st = 0 := by rw [massFlowRate, hflow]; ring
  have hQ : QTankToPanel p st = 0 := by
    rw [QTankToPanel, if_neg (by rw [hm]; exact lt_irrefl 0)]
  have hd : QDelivered p st = 0 := by rw [QDelivered, hm]; ring
  refine ⟨hQ, hd, ?_⟩
  rw [newTankTemp, hd, computeTemperatureChange]
  simp

/-- C9 (witness): with the default parameters but the pump set to exactly
0, the tick exchanges no heat with the tank. -/
theorem claim9_witness :
    QTankToPanel { DEFAULT_PARAMS with flowRate := 0 } (getInitialState DEFAULT_PARAMS) = 0 ∧
    QDelivered { DEFAULT_PARAMS with flowRate := 0 } (getInitialState DEFAULT_PARAMS) = 0 ∧
    newTankTemp { DEFAULT_PARAMS with flowRate := 0 } (getInitialState DEFAULT_PARAMS) =
      (getInitialState DEFAULT_PARAMS).tankTemp :=
  claim9_no_flow_no_exchange _ _ (by rw [effectiveFlowRate]; norm_num)
    (by show (0:ℝ) < 200; norm_num)

/-- C10: calling `reset` before any parameters were ever bound leaves the
simulation state exactly as it was (no reinitialization happens) but still
clears the history buffer. -/
theorem claim10_reset_unbound (s : SimulationState) (d : List TickData) :
    engineReset ⟨none, s, d⟩ = ⟨none, s, []⟩ :=
  rfl

/-! ### Lemmas on the air-property models, for the heat-transfer
coefficient claims -/

theorem getAirPressure_pos (e : ℝ) : 0 < getAirPressure e := by
  rw [getAirPressure]
  positivity

theorem getAirDensity_pos (tempF e : ℝ) (h : -459.67 < tempF) :
    0 < getAirDensity tempF e := by
  rw [getAirDensity]
  exact div_pos (getAirPressure_pos e)
    (mul_pos (by norm_num)
      (div_pos (mul_pos (by linarith) (by norm_num)) (by norm_num)))

theorem getAirViscosity_pos (tempF : ℝ) (h : -459.67 < tempF) :
    0 < getAirViscosity tempF := by
  rw [getAirViscosity]
  exact mul_pos (div_pos (by norm_num) (by linarith))
    (Real.rpow_pos_of_pos (div_pos (by linarith) (by norm_num)) _)

/-- C6 (amended): the convective-coefficient estimator returns exactly the
floor value 5 whenever |T_panel − T_ambient| < 0.1; and when
|T_panel − T_ambient| ≥ 0.1, for a positive panel height and a film
temperature in the band where the linear air-conductivity model is
nonnegative and the Prandtl model positive (−2200/7 ≤ film < 7130 °F), the
result is strictly greater than 5.  Outside that band the result can drop
below the floor (see the counterexample). -/
theorem claim6_floor_and_exceeds (panelTempF ambientTempF panelHeight : ℝ) :
    (|panelTempF - ambientTempF| < 0.1 →
      computeHeatTransferCoeff panelTempF ambientTempF panelHeight 0 0 0 = 5) ∧
    (0.1 ≤ |panelTempF - ambientTempF| → 0 < panelHeight →
      -(2200/7) ≤ filmTemp panelTempF ambientTempF →
      filmTemp panelTempF ambientTempF < 7130 →
      5 < computeHeatTransferCoeff panelTempF ambientTempF panelHeight 0 0 0) := by
  constructor
  · intro h
    rw [computeHeatTransferCoeff, if_pos h]
  · intro habs hH hlo hhi
    rw [computeHeatTransferCoeff, if_neg (not_lt.mpr habs)]
    have hfR : (0:ℝ) < filmTemp panelTempF ambientTempF + 459.67 := by
      have : (-(2200/7) : ℝ) > -459.67 := by norm_num
      linarith
    have hPrEq : getPrandtlNumber (filmTemp panelTempF ambientTempF) 0 =
        0.713 - 0.0001 * filmTemp panelTempF ambientTempF := by
      rw [getPrandtlNumber]
      norm_num [min_def]
    have hPr : 0 < getPrandtlNumber (filmTemp panelTempF ambientTempF) 0 := by
      rw [hPrEq]; linarith
    have hkEq : getAirThermalConductivity (filmTemp panelTempF ambientTempF) 0 =
        0.0242 + 7.7e-5 * filmTemp panelTempF ambientTempF := by
      rw [getAirThermalConductivity]; ring
    have hk : 0 ≤ getAirThermalConductivity (filmTemp panelTempF ambientTempF) 0 := by
      rw [hkEq]; linarith
    have hmu : 0 < getAirViscosity (filmTemp panelTempF ambientTempF) :=
      getAirViscosity_pos _ (by linarith)
    have hrho : 0 < getAirDensity (filmTemp panelTempF ambientTempF) 0 :=
      getAirDensity_pos _ 0 (by linarith)
    have hGr : 0 ≤ chtcGrashof panelTempF ambientTempF panelHeight 0 := by
      rw [chtcGrashof]
      apply div_nonneg
      · exact mul_nonneg
          (mul_nonneg (mul_nonneg (by norm_num) (le_of_lt (by positivity : (0:ℝ) < 1 / (filmTemp panelTempF ambientTempF + 459.67))))
            (abs_nonneg _))
          (Real.rpow_nonneg (le_of_lt hH) _)
      · exact Real.rpow_nonneg (div_nonneg hmu.le hrho.le) _
    have hRa : 0 ≤ chtcRayleigh panelTempF ambientTempF panelHeight 0 0 := by
      rw [chtcRayleigh]
      exact mul_nonneg hGr hPr.le
    have hRaQ : 0 ≤ chtcRayleigh panelTempF ambientTempF panelHeight 0 0 ^ (0.25:ℝ) :=
      Real.rpow_nonneg hRa _
    have ht0 : (0:ℝ) ≤ 0.492 / getPrandtlNumber (filmTemp panelTempF ambientTempF) 0 :=
      div_nonneg (by norm_num) hPr.le
    have hdenb : (0:ℝ) <
        1 + (0.492 / getPrandtlNumber (filmTemp panelTempF ambientTempF) 0) ^ ((9:ℝ)/16) := by
      have := Real.rpow_nonneg ht0 ((9:ℝ)/16)
      linarith
    have hden : (0:ℝ) <
        (1 + (0.492 / getPrandtlNumber (filmTemp panelTempF ambientTempF) 0) ^ ((9:ℝ)/16)) ^ ((4:ℝ)/9) :=
      Real.rpow_pos_of_pos hdenb _
    have hNu : (0.68:ℝ) ≤ chtcNusselt panelTempF ambientTempF panelHeight 0 0 := by
      rw [chtcNusselt]
      have : 0 ≤ 0.67 * chtcRayleigh panelTempF ambientTempF panelHeight 0 0 ^ (0.25:ℝ) /
          (1 + (0.492 / getPrandtlNumber (filmTemp panelTempF ambientTempF) 0) ^ ((9:ℝ)/16)) ^ ((4:ℝ)/9) :=
        div_nonneg (mul_nonneg (by norm_num) hRaQ) hden.le
      linarith
    have hh : 0 ≤ chtcNusselt panelTempF ambientTempF panelHeight 0 0 *
        getAirThermalConductivity (filmTemp panelTempF ambientTempF) 0 / panelHeight :=
      div_nonneg (mul_nonneg (le_trans (by norm_num) hNu) hk) hH.le
    have hwind : (5.7:ℝ) + 3.8 * (0.5 * (1 + 0 / 1000)) = 7.6 := by norm_num
    rw [hwind]
    linarith

/-- C6 (witness): the estimator returns exactly 5 at ΔT = 0.05 and a value
strictly above 5 at panel 80°F / ambient 70°F with the default panel
height 1.5 m. -/
theorem claim6_witness :
    computeHeatTransferCoeff 70.05 70 1.5 0 0 0 = 5 ∧
    5 < computeHeatTransferCoeff 80 70 1.5 0 0 0 := by
  constructor
  · refine (claim6_floor_and_exceeds 70.05 70 1.5).1 ?_
    rw [show (70.05:ℝ) - 70 = 0.05 by norm_num,
      abs_of_nonneg (by norm_num : (0:ℝ) ≤ 0.05)]
    norm_num
  · refine (claim6_floor_and_exceeds 80 70 1.5).2 ?_ (by norm_num) ?_ ?_
    · rw [show (80:ℝ) - 70 = 10 by norm_num,
        abs_of_nonneg (by norm_num : (0:ℝ) ≤ 10)]
      norm_num
    · rw [filmTemp]; norm_num
    · rw [filmTemp]; norm_num

/-- C6 (counterexample): at panel −390°F, ambient −458°F (both above
absolute zero −459.67°F, ΔT = 68 ≥ 0.1) the film temperature −424°F makes
the linear air-conductivity model negative, and the estimator returns a
value strictly below the floor 5 — refuting "a value > 5 whenever
|ΔT| ≥ 0.1". -/
theorem claim6_counterexample :
    (0.1:ℝ) ≤ |(-390:ℝ) - (-458:ℝ)| ∧
    computeHeatTransferCoeff (-390) (-458) 1.5 0 0 0 < 5 := by
  have habs : |(-390:ℝ) - (-458:ℝ)| = 68 := by
    rw [show ((-390:ℝ) - (-458)) = 68 by norm_num]
    exact abs_of_nonneg (by norm_num)
  refine ⟨by rw [habs]; norm_num, ?_⟩
  have hfilm : filmTemp (-390) (-458) = -424 := by rw [filmTemp]; norm_num
  -- exact values of the rational sub-terms at film −424°F
  have hkEq : getAirThermalConductivity (-424) 0 = -0.008448 := by
    rw [getAirThermalConductivity]; norm_num
  have hPrEq : getPrandtlNumber (-424) 0 = 0.7554 := by
    rw [getPrandtlNumber]; norm_num [min_def]
  -- density: pressure at elevation 0 is exactly 101325
  have hrho : (17.8:ℝ) ≤ getAirDensity (-424) 0 := by
    rw [getAirDensity, getAirPressure, max_self]
    norm_num [Real.exp_zero]
  have hrho0 : (0:ℝ) < getAirDensity (-424) 0 :=
    getAirDensity_pos _ 0 (by norm_num)
  have hmu0 : (0:ℝ) < getAirViscosity (-424) :=
    getAirViscosity_pos _ (by norm_num)
  -- viscosity: (35.67/491.67)^1.5 ≤ 0.02 since (35.67/491.67)^3 ≤ 0.02^2
  have hxpos : (0:ℝ) ≤ 35.67 / 491.67 := by norm_num
  have hx : ((35.67:ℝ) / 491.67) ^ (1.5:ℝ) ≤ 0.02 := by
    have hsq : (((35.67:ℝ) / 491.67) ^ (1.5:ℝ)) ^ (2:ℕ) = ((35.67:ℝ) / 491.67) ^ (3:ℕ) := by
      rw [← Real.rpow_natCast (((35.67:ℝ) / 491.67) ^ (1.5:ℝ)) 2,
        ← Real.rpow_mul hxpos, ← Real.rpow_natCast ((35.67:ℝ) / 491.67) 3]
      norm_num
    have h3 : ((35.67:ℝ) / 491.67) ^ (3:ℕ) ≤ 0.0004 := by norm_num
    have hnn : (0:ℝ) ≤ ((35.67:ℝ) / 491.67) ^ (1.5:ℝ) := Real.rpow_nonneg hxpos _
    nlinarith [hsq, h3, hnn]
  have hmu : getAirViscosity (-424) ≤ 1.42e-6 := by
    rw [getAirViscosity, show ((-424:ℝ) + 459.67) = 35.67 by norm_num]
    calc 1.716e-5 * (491.67 + 110.4) / (35.67 + 110.4) * ((35.67 / 491.67) ^ (1.5:ℝ))
        ≤ 1.716e-5 * (491.67 + 110.4) / (35.67 + 110.4) * 0.02 :=
          mul_le_mul_of_nonneg_left hx (by norm_num)
      _ ≤ 1.42e-6 := by norm_num
  -- kinematic viscosity squared
  have hnu2 : (getAirViscosity (-424) / getAirDensity (-424) 0) ^ (2:ℝ) ≤ 6.4e-15 := by
    have hq : getAirViscosity (-424) / getAirDensity (-424) 0 ≤ 1.42e-6 / 17.8 :=
      div_le_div₀ (by norm_num) hmu (by norm_num) hrho
    have hqn : (0:ℝ) ≤ getAirViscosity (-424) / getAirDensity (-424) 0 :=
      (div_pos hmu0 hrho0).le
    have h2 : (getAirViscosity (-424) / getAirDensity (-424) 0) ^ (2:ℝ) =
        (getAirViscosity (-424) / getAirDensity (-424) 0) ^ (2:ℕ) := by
      rw [← Real.rpow_natCast (getAirViscosity (-424) / getAirDensity (-424) 0) 2]
      norm_num
    rw [h2]
    calc (getAirViscosity (-424) / getAirDensity (-424) 0) ^ (2:ℕ)
        ≤ ((1.42e-6:ℝ) / 17.8) ^ (2:ℕ) := pow_le_pow_left₀ hqn hq 2
      _ ≤ 6.4e-15 := by norm_num
  have hnu2pos : (0:ℝ) < (getAirViscosity (-424) / getAirDensity (-424) 0) ^ (2:ℝ) :=
    Real.rpow_pos_of_pos (div_pos hmu0 hrho0) _
  -- Grashof number from below
  have h15 : (1.5:ℝ) ^ (3:ℝ) = 3.375 := by
    rw [show (3:ℝ) = ((3:ℕ):ℝ) by norm_num, Real.rpow_natCast]
    norm_num
  have hGr : (9.8e15:ℝ) ≤ chtcGrashof (-390) (-458) 1.5 0 := by
    rw [chtcGrashof, hfilm, habs, h15]
    refine le_trans (by norm_num : (9.8e15:ℝ) ≤ 63 / 6.4e-15) ?_
    exact div_le_div₀ (by norm_num) (by norm_num) hnu2pos hnu2
  -- Rayleigh number from below
  have hRa : (1.6e13:ℝ) ≤ chtcRayleigh (-390) (-458) 1.5 0 0 := by
    rw [chtcRayleigh, hfilm, hPrEq]
    nlinarith [hGr]
  have hRa0 : (0:ℝ) ≤ chtcRayleigh (-390) (-458) 1.5 0 0 := by linarith
  -- fourth root of the Rayleigh number from below
  have hRaQ : (2000:ℝ) ≤ chtcRayleigh (-390) (-458) 1.5 0 0 ^ (0.25:ℝ) := by
    have h1 : ((1.6e13:ℝ)) ^ (0.25:ℝ) ≤ chtcRayleigh (-390) (-458) 1.5 0 0 ^ (0.25:ℝ) :=
      Real.rpow_le_rpow (by norm_num) hRa (by norm_num)
    refine le_trans ?_ h1
    rw [show (1.6e13:ℝ) = (2000:ℝ) ^ (4:ℕ) by norm_num,
      ← Real.rpow_natCast (2000:ℝ) 4,
      ← Real.rpow_mul (by norm_num : (0:ℝ) ≤ 2000)]
    rw [show ((4:ℕ):ℝ) * 0.25 = 1 by norm_num, Real.rpow_one]
  -- Churchill–Chu denominator between 1 and 2
  have ht0 : (0:ℝ) ≤ 0.492 / getPrandtlNumber (-424) 0 := by
    rw [hPrEq]; norm_num
  have htle : (0.492:ℝ) / getPrandtlNumber (-424) 0 ≤ 1 := by
    rw [hPrEq]; norm_num
  have hdenb0 : (0:ℝ) ≤ (0.492 / getPrandtlNumber (-424) 0) ^ ((9:ℝ)/16) :=
    Real.rpow_nonneg ht0 _
  have hden_pos : (0:ℝ) <
      (1 + (0.492 / getPrandtlNumber (-424) 0) ^ ((9:ℝ)/16)) ^ ((4:ℝ)/9) :=
    Real.rpow_pos_of_pos (by linarith) _
  have hden_le : ((1:ℝ) + (0.492 / getPrandtlNumber (-424) 0) ^ ((9:ℝ)/16)) ^ ((4:ℝ)/9) ≤ 2 := by
    have h1 : (0.492 / getPrandtlNumber (-424) 0) ^ ((9:ℝ)/16) ≤ 1 :=
      Real.rpow_le_one ht0 htle (by norm_num)
    calc ((1:ℝ) + (0.492 / getPrandtlNumber (-424) 0) ^ ((9:ℝ)/16)) ^ ((4:ℝ)/9)
        ≤ (2:ℝ) ^ ((4:ℝ)/9) :=
          Real.rpow_le_rpow (by linarith) (by linarith) (by norm_num)
      _ ≤ (2:ℝ) ^ (1:ℝ) :=
          Real.rpow_le_rpow_of_exponent_le (by norm_num) (by norm_num)
      _ = 2 := Real.rpow_one 2
  -- Nusselt number from below
  have hNu : (670:ℝ) ≤ chtcNusselt (-390) (-458) 1.5 0 0 := by
    rw [chtcNusselt, hfilm]
    have hfrac : (0.67:ℝ) * 2000 / 2 ≤
        0.67 * chtcRayleigh (-390) (-458) 1.5 0 0 ^ (0.25:ℝ) /
          (1 + (0.492 / getPrandtlNumber (-424) 0) ^ ((9:ℝ)/16)) ^ ((4:ℝ)/9) :=
      div_le_div₀ (by nlinarith [hRaQ]) (by linarith) hden_pos hden_le
    have h670 : (0.67:ℝ) * 2000 / 2 = 670 := by norm_num
    linarith
  -- assemble: h = Nu·k/1.5 ≤ 670·(−0.008448)/1.5, total < 5
  rw [computeHeatTransferCoeff, if_neg (by rw [habs]; norm_num), hfilm, hkEq]
  have hNuk : chtcNusselt (-390) (-458) 1.5 0 0 * (-0.008448) ≤ 670 * (-0.008448) :=
    mul_le_mul_of_nonpos_right hNu (by norm_num)
  have hdiv : chtcNusselt (-390) (-458) 1.5 0 0 * (-0.008448) / 1.5 ≤
      670 * (-0.008448) / 1.5 :=
    (div_le_div_iff_of_pos_right (by norm_num : (0:ℝ) < 1.5)).mpr hNuk
  have hwind : (5.7:ℝ) + 3.8 * (0.5 * (1 + 0 / 1000)) = 7.6 := by norm_num
  rw [hwind]
  linarith

end

end PhysicsSim
